import Mathlib

/-!
Verification of the request execution engine of an asynchronous
music-streaming API client (`aiospotify/http.py`).

The development shallowly embeds:
* `Route.__init__` — URL template substitution with percent-encoding;
* `HTTPClient._get_credentials` — credential resolution and refresh;
* `HTTPClient.request` — the bounded retry loop with rate-limit waits,
  linear backoff for transient server errors, connection-error handling
  and error classification;
* representative endpoint methods (`get_albums`, `get_artists`,
  `save_tracks`, `get_album_tracks`, `get_new_releases`) with their
  local parameter validation.

The transport is modelled as a script: the list of outcomes successive
HTTP exchanges would produce.  Sleeps (backoff and rate-limit waits) are
recorded as a list of durations in seconds (rationals, since the
`Retry-After` header allows fractional seconds), and the number of
transport invocations is counted.
-/

set_option autoImplicit false

namespace Aiospotify

/-- Decoded response bodies, as produced by `utils.json_or_text`:
either parsed JSON or raw text. -/
inductive JsonData where
  | null
  | bool (b : Bool)
  | num (q : ℚ)
  | str (s : String)
  | arr (elems : List JsonData)
  | obj (fields : List (String × JsonData))

/-- Python truthiness of a decoded JSON value. -/
def JsonData.truthy : JsonData → Bool
  | .null => false
  | .bool b => b
  | .num q => q ≠ 0
  | .str s => s ≠ ""
  | .arr elems => ¬ elems.isEmpty
  | .obj fields => ¬ fields.isEmpty

/-- `dict.get` / `dict[...]` lookup on a decoded JSON object:
the first binding of the key, if any. -/
def lookupField : List (String × JsonData) → String → Option JsonData
  | [], _ => none
  | (k, v) :: rest, key => if k = key then some v else lookupField rest key

/-- What one transport invocation does: either an HTTP response
(status, optional parsed numeric `Retry-After` header, decoded body), or
an `OSError` with the given errno raised before a response is received. -/
inductive TransportResult where
  | ok (status : Nat) (retryAfter : Option ℚ) (body : JsonData)
  | osErr (errno : Int)

/-- The exception kinds of the fixed status-to-exception mapping. -/
inductive ExceptionKind where
  | badRequest
  | unauthorized
  | forbidden
  | notFound
  | serverError
  deriving DecidableEq, Repr

/-- Modelled from the spec: `values.EXCEPTION_MAPPING` (the module
`aiospotify/values.py` is not part of the sources at hand).  The spec
describes it as a fixed status-to-kind table: 400 to BadRequest, 401 to
Unauthorized, 403 to Forbidden, 404 to NotFound, 5xx to ServerError.
`none` models a status absent from the table (a Python `KeyError`). -/
def EXCEPTION_MAPPING (status : Nat) : Option ExceptionKind :=
  if status = 400 then some .badRequest
  else if status = 401 then some .unauthorized
  else if status = 403 then some .forbidden
  else if status = 404 then some .notFound
  else if 500 ≤ status ∧ status < 600 then some .serverError
  else none

/-- How a call to `HTTPClient.request` can end. -/
inductive RequestOutcome where
  /-- A 2xx response: the decoded body is returned. -/
  | success (body : JsonData)
  /-- `exceptions.RequestEntityTooLarge` raised for status 413 with the
  locally synthesized payload. -/
  | entityTooLarge (data : JsonData)
  /-- `values.EXCEPTION_MAPPING[status](response, error)` raised. -/
  | mapped (kind : ExceptionKind) (error : JsonData)
  /-- `KeyError`: the status is absent from `EXCEPTION_MAPPING`. -/
  | mappingKeyError (status : Nat)
  /-- `KeyError`: a 429 response carried no `Retry-After` header. -/
  | headerKeyError
  /-- `AttributeError`: `.get` called on a non-object body. -/
  | attributeError
  /-- `exceptions.HTTPError(response, response_data["error"])` raised
  after the loop exhausted its attempts. -/
  | httpError (status : Nat) (error : JsonData)
  /-- `KeyError` at the final raise: the last body has no `error` field. -/
  | finalKeyError
  /-- `TypeError` at the final raise: the last body was raw text. -/
  | finalTypeError
  /-- The caught `OSError` re-raised unchanged. -/
  | osError (errno : Int)
  /-- `UnboundLocalError`: the loop ended without `response` ever being
  assigned, and the final `if response:` reads an unbound local. -/
  | unboundLocal
  /-- The transport script ran out (more invocations than scripted). -/
  | scriptExhausted

/-- The observable result of one call to `HTTPClient.request`: how it
ended, every sleep performed (seconds, in order), and how many transport
invocations were made. -/
structure RunResult where
  outcome : RequestOutcome
  sleeps : List ℚ
  attempts : Nat

/-- The payload synthesized for status 413:
`{"status": 413, "message": "Request entity too large."}`. -/
def payload413 : JsonData :=
  .obj [("status", .num 413), ("message", .str "Request entity too large.")]

/-- The code after the `for` loop:
`if response: raise exceptions.HTTPError(response, response_data["error"])`
followed by `raise RuntimeError(...)`.  `last` is the last response
received, if any; an `aiohttp` response object is always truthy, and if
no response was ever bound the `if response:` itself raises
`UnboundLocalError`. -/
def finalRaise : Option (Nat × JsonData) → RequestOutcome
  | none => .unboundLocal
  | some (status, body) =>
    match body with
    | .obj fields =>
      match lookupField fields "error" with
      | some e => .httpError status e
      | none => .finalKeyError
    | _ => .finalTypeError

/-- The linear backoff delay `1 + tries * 2` seconds. -/
def backoff (tries : Nat) : ℚ := ((1 + tries * 2 : Nat) : ℚ)

/-- One iteration of `for tries in range(3)` in `HTTPClient.request`,
with `fuel` the number of iterations remaining (`fuel = 3 - tries`).
`last` is the last response bound to the `response` local, `sleeps` and
`attempts` accumulate the observable effects. -/
def runAux : Nat → Nat → List TransportResult → Option (Nat × JsonData) →
    List ℚ → Nat → RunResult
  | 0, _, _, last, sleeps, attempts =>
    ⟨finalRaise last, sleeps, attempts⟩
  | _ + 1, _, [], _last, sleeps, attempts =>
    ⟨.scriptExhausted, sleeps, attempts⟩
  | fuel + 1, tries, ev :: rest, last, sleeps, attempts =>
    match ev with
    | .osErr errno =>
      if tries < 4 ∧ (errno = 54 ∨ errno = 10054) then
        runAux fuel (tries + 1) rest last (sleeps ++ [backoff tries]) (attempts + 1)
      else
        ⟨.osError errno, sleeps, attempts + 1⟩
    | .ok status retryAfter body =>
      if 200 ≤ status ∧ status < 300 then
        ⟨.success body, sleeps, attempts + 1⟩
      else if status = 413 then
        ⟨.entityTooLarge payload413, sleeps, attempts + 1⟩
      else if status = 429 then
        match retryAfter with
        | some q =>
            runAux fuel (tries + 1) rest (some (status, body)) (sleeps ++ [q]) (attempts + 1)
        | none => ⟨.headerKeyError, sleeps, attempts + 1⟩
      else if status = 500 ∨ status = 502 ∨ status = 503 then
        runAux fuel (tries + 1) rest (some (status, body)) (sleeps ++ [backoff tries]) (attempts + 1)
      else
        match body with
        | .obj fields =>
          match lookupField fields "error" with
          | some e =>
            if e.truthy then
              match EXCEPTION_MAPPING status with
              | some kind => ⟨.mapped kind e, sleeps, attempts + 1⟩
              | none => ⟨.mappingKeyError status, sleeps, attempts + 1⟩
            else
              runAux fuel (tries + 1) rest (some (status, body)) sleeps (attempts + 1)
          | none =>
            runAux fuel (tries + 1) rest (some (status, body)) sleeps (attempts + 1)
        | _ => ⟨.attributeError, sleeps, attempts + 1⟩

/-- `HTTPClient.request`, run against a transport script: the retry loop
`for tries in range(3)` starting with no response bound, no sleeps and
no attempts made. -/
def requestRun (script : List TransportResult) : RunResult :=
  runAux 3 0 script none [] 0

/-! ## Route: URL template substitution (`Route.__init__`) -/

/-- One piece of a path template: literal text, or a `\x7bname\x7d`
placeholder. -/
inductive Segment where
  | lit (s : String)
  | hole (name : String)
  deriving DecidableEq, Repr

/-- A placeholder or query-parameter value: Python `str` values are
percent-encoded on substitution, other values (integers here) are
stringified and inserted as-is. -/
inductive PyValue where
  | str (s : String)
  | int (n : Int)
  deriving DecidableEq, Repr

/-- UTF-8 encoding of one character, as a list of byte values. -/
def utf8EncodeChar (c : Char) : List Nat :=
  let n := c.toNat
  if n < 128 then [n]
  else if n < 2048 then [192 + n / 64, 128 + n % 64]
  else if n < 65536 then [224 + n / 4096, 128 + (n / 64) % 64, 128 + n % 64]
  else [240 + n / 262144, 128 + (n / 4096) % 64, 128 + (n / 64) % 64, 128 + n % 64]

/-- Byte values `urllib.parse.quote` leaves unescaped with its default
`safe` argument of `/`: ASCII letters, digits, `_`, `.`, `-`, `~`
and `/`. -/
def quoteSafe (b : Nat) : Bool :=
  (65 ≤ b && b ≤ 90) || (97 ≤ b && b ≤ 122) || (48 ≤ b && b ≤ 57) ||
    b == 45 || b == 46 || b == 95 || b == 126 || b == 47

/-- Uppercase hexadecimal digit. -/
def hexDigit (n : Nat) : Char :=
  if n < 10 then Char.ofNat (48 + n) else Char.ofNat (55 + n)

/-- One byte of percent-encoded output. -/
def quoteByte (b : Nat) : String :=
  if quoteSafe b then String.singleton (Char.ofNat b)
  else "%" ++ String.singleton (hexDigit (b / 16)) ++ String.singleton (hexDigit (b % 16))

/-- `urllib.parse.quote` with default arguments: percent-encodes every
UTF-8 byte outside the unreserved set (plus `/`). -/
def quote (s : String) : String :=
  String.join ((s.data.flatMap utf8EncodeChar).map quoteByte)

/-- Placeholder-map lookup (first binding of the name, if any). -/
def lookupParam : List (String × PyValue) → String → Option PyValue
  | [], _ => none
  | (k, v) :: rest, key => if k = key then some v else lookupParam rest key

/-- The dictionary comprehension in `Route.__init__`:
`quote(value) if isinstance(value, str) else value`, with non-string
values stringified by the subsequent formatting. -/
def mapValue : PyValue → String
  | .str s => quote s
  | .int n => toString n

/-- `str.format_map` over a template: placeholders substituted left to
right; a placeholder whose name is absent from the map raises `KeyError`
carrying that name. -/
def formatMap : List Segment → List (String × PyValue) → Except String String
  | [], _ => .ok ""
  | .lit s :: rest, m =>
    match formatMap rest m with
    | .ok t => .ok (s ++ t)
    | .error k => .error k
  | .hole n :: rest, m =>
    match lookupParam m n with
    | some v =>
      match formatMap rest m with
      | .ok t => .ok (mapValue v ++ t)
      | .error k => .error k
    | none => .error n

/-- The literal text of a template: placeholders kept verbatim as
`\x7bname\x7d`. -/
def renderTemplate : List Segment → String
  | [] => ""
  | .lit s :: rest => s ++ renderTemplate rest
  | .hole n :: rest => "\x7b" ++ n ++ "\x7d" ++ renderTemplate rest

/-- The names of the placeholders a template references. -/
def holes : List Segment → List String
  | [] => []
  | .lit _ :: rest => holes rest
  | .hole n :: rest => n :: holes rest

/-- `Route.BASE_URL`. -/
def BASE_URL : String := "https://api.spotify.com/v1"

/-- `Route.__init__`: `url = BASE_URL + path`, and if the placeholder
map is non-empty, `url.format_map(...)` substitutes the placeholders
(the base URL contains no placeholders, so it passes through formatting
as a literal). -/
def routeUrl (path : List Segment) (params : List (String × PyValue)) :
    Except String String :=
  if params.isEmpty then .ok (BASE_URL ++ renderTemplate path)
  else formatMap (.lit BASE_URL :: path) params

/-- The substitution described by the spec: the path template with each
placeholder replaced by its value, text values percent-encoded, others
stringified as-is.  Meaningful when every referenced placeholder is
bound; an unbound one is kept verbatim. -/
def specSubst (params : List (String × PyValue)) : List Segment → String
  | [] => ""
  | .lit s :: rest => s ++ specSubst params rest
  | .hole n :: rest =>
    (match lookupParam params n with
     | some v => mapValue v
     | none => "\x7b" ++ n ++ "\x7d") ++ specSubst params rest

/-! ## Credential resolution (`HTTPClient._get_credentials`) -/

/-- A credential as the engine sees it: a bearer token and the answer
`is_expired()` would give. -/
structure Credential where
  accessToken : String
  expired : Bool
  deriving DecidableEq, Repr

/-- Modelled from the spec: `refresh` renews the token and expiry of the
credential in place (the credential classes live in
`aiospotify/objects.py`, which is not among the sources at hand); after
a refresh the credential no longer reports itself expired. -/
def Credential.refreshed (c : Credential) : Credential :=
  { c with expired := false }

/-- The effective credential of `_get_credentials`:
`credentials or self._client_credentials`, where a missing cached client
credential is first created (`fresh` models the credential
`ClientCredentials.from_client_secret` would return). -/
def effectiveCredential (cached : Option Credential) (fresh : Credential)
    (caller : Option Credential) : Credential :=
  match caller with
  | some c => c
  | none =>
    match cached with
    | some c => c
    | none => fresh

/-- Result of `_get_credentials`: the credential returned and the number
of times `refresh` was awaited during the call. -/
structure GetCredentialsResult where
  returned : Credential
  refreshCalls : Nat
  deriving DecidableEq, Repr

/-- `HTTPClient._get_credentials`: create the cached client credential
if absent, pick the caller-supplied credential if given (else the cached
one), refresh it exactly when it reports itself expired, return it. -/
def getCredentials (cached : Option Credential) (fresh : Credential)
    (caller : Option Credential) : GetCredentialsResult :=
  let eff := effectiveCredential cached fresh caller
  if eff.expired then ⟨eff.refreshed, 1⟩ else ⟨eff, 0⟩

/-! ## Endpoint methods and local validation -/

/-- The transport request an endpoint method hands to
`HTTPClient.request`: HTTP method, constructed route URL, and query
parameters. -/
structure PendingRequest where
  method : String
  url : Except String String
  params : List (String × PyValue)

/-- The transport invocations an endpoint call leads to: none when the
call failed local validation before reaching `self.request`. -/
def requestsOf : Except String PendingRequest → List PendingRequest
  | .ok r => [r]
  | .error _ => []

/-- `if market: parameters["market"] = market` — Python truthiness, so
`None` and the empty string both skip the parameter. -/
def optStrParam (name : String) : Option String → List (String × PyValue)
  | some s => if s = "" then [] else [(name, .str s)]
  | none => []

/-- `if offset: parameters["offset"] = offset` — Python truthiness, so
`None` and `0` both skip the parameter. -/
def optIntParam (name : String) : Option Int → List (String × PyValue)
  | some n => if n = 0 then [] else [(name, .int n)]
  | none => []

/-- Modelled from the spec: `utils.limit_value` (the module
`aiospotify/utils.py` is not among the sources at hand) checks an
out-of-range numeric parameter and raises `ValueError` when the value
lies outside the inclusive range. -/
def limit_value (name : String) (value lo hi : Int) : Except String Unit :=
  if value < lo ∨ hi < value then
    .error (name ++ " must be between " ++ toString lo ++ " and " ++ toString hi ++ ".")
  else .ok ()

/-- The `if limit: utils.limit_value("limit", limit, lo, hi);
parameters["limit"] = limit` pattern shared by the paging endpoints:
skipped entirely when `limit` is `None` or `0` (Python truthiness),
otherwise range-checked and added. -/
def checkedLimitParam (limit : Option Int) (lo hi : Int) :
    Except String (List (String × PyValue)) :=
  match limit with
  | some l =>
    if l = 0 then .ok []
    else
      match limit_value "limit" l lo hi with
      | .ok _ => .ok [("limit", .int l)]
      | .error e => .error e
  | none => .ok []

/-- `HTTPClient.get_albums`: at most 20 ids (`ValueError` otherwise,
quote marks of the source message omitted), then a GET on `/albums` with
the comma-joined ids and the optional market. -/
def get_albums (ids : List String) (market : Option String) :
    Except String PendingRequest :=
  if ids.length > 20 then .error "ids can not contain more than 20 ids."
  else
    .ok { method := "GET"
        , url := routeUrl [.lit "/albums"] []
        , params := ("ids", .str (String.intercalate "," ids)) :: optStrParam "market" market }

/-- `HTTPClient.get_artists`: at most 50 ids, then a GET on `/artists`. -/
def get_artists (ids : List String) (market : Option String) :
    Except String PendingRequest :=
  if ids.length > 50 then .error "ids can not contain more than 50 ids."
  else
    .ok { method := "GET"
        , url := routeUrl [.lit "/artists"] []
        , params := ("ids", .str (String.intercalate "," ids)) :: optStrParam "market" market }

/-- `HTTPClient.save_tracks`: at most 50 ids, then a PUT on
`/me/tracks`. -/
def save_tracks (ids : List String) : Except String PendingRequest :=
  if ids.length > 50 then .error "ids can not contain more than 50 ids."
  else
    .ok { method := "PUT"
        , url := routeUrl [.lit "/me/tracks"] []
        , params := [("ids", .str (String.intercalate "," ids))] }

/-- `HTTPClient.get_album_tracks`: optional market, truthiness-guarded
limit (range 1 to 50) and offset, GET on `/albums/\x7bid\x7d/tracks`. -/
def get_album_tracks (albumId : String) (market : Option String)
    (limit : Option Int) (offset : Option Int) : Except String PendingRequest :=
  match checkedLimitParam limit 1 50 with
  | .error e => .error e
  | .ok lp =>
    .ok { method := "GET"
        , url := routeUrl [.lit "/albums/", .hole "id", .lit "/tracks"] [("id", .str albumId)]
        , params := optStrParam "market" market ++ lp ++ optIntParam "offset" offset }

/-- `HTTPClient.get_new_releases`: optional country, truthiness-guarded
limit (range 1 to 50) and offset, GET on `/browse/new-releases`. -/
def get_new_releases (country : Option String)
    (limit : Option Int) (offset : Option Int) : Except String PendingRequest :=
  match checkedLimitParam limit 1 50 with
  | .error e => .error e
  | .ok lp =>
    .ok { method := "GET"
        , url := routeUrl [.lit "/browse/new-releases"] []
        , params := optStrParam "country" country ++ lp ++ optIntParam "offset" offset }

/-! ## Theorems -/

/-- C1 (counterexample): with a transport returning 503 on all three
attempts, the call does raise the generic HTTP error after 3 attempts,
but the backoff sleeps performed are 1, 3 and 5 seconds: a 5-second
sleep follows the third attempt as well, so the sleeps are not only the
1s and 3s the claim allows. -/
theorem request_c1_counterexample :
    requestRun (List.replicate 3
        (.ok 503 none (.obj [("error", .obj [("message", .str "oops")])])))
      = ⟨.httpError 503 (.obj [("message", .str "oops")]), [1, 3, 5], 3⟩ ∧
    ([1, 3, 5] : List ℚ) ≠ [1, 3] := by
  refine ⟨rfl, ?_⟩
  simp

/-- C1 (amended): when the transport returns a status in
\x7b500, 502, 503\x7d on three consecutive attempts, the call raises the
generic HTTP error built from the last response after exactly 3
attempts, and the backoff sleeps are 1s, 3s and 5s after attempt
indices 0, 1 and 2 — the third attempt also sleeps 5s before the
raise. -/
theorem request_transient_exhaustion
    (s0 s1 s2 : Nat) (b0 b1 : JsonData) (f2 : List (String × JsonData)) (e : JsonData)
    (h0 : s0 = 500 ∨ s0 = 502 ∨ s0 = 503)
    (h1 : s1 = 500 ∨ s1 = 502 ∨ s1 = 503)
    (h2 : s2 = 500 ∨ s2 = 502 ∨ s2 = 503)
    (he : lookupField f2 "error" = some e) :
    requestRun [.ok s0 none b0, .ok s1 none b1, .ok s2 none (.obj f2)]
      = ⟨.httpError s2 e, [1, 3, 5], 3⟩ := by
  rcases h0 with rfl | rfl | rfl <;> rcases h1 with rfl | rfl | rfl <;>
    rcases h2 with rfl | rfl | rfl <;>
      simp [requestRun, runAux, finalRaise, he, backoff]

/-- C1 (witness): the amended theorem applied at a concrete
three-response script. -/
theorem request_transient_exhaustion_witness :
    requestRun [.ok 503 none .null, .ok 500 none .null,
        .ok 502 none (.obj [("error", .str "err")])]
      = ⟨.httpError 502 (.str "err"), [1, 3, 5], 3⟩ :=
  request_transient_exhaustion 503 500 502 .null .null [("error", .str "err")]
    (.str "err") (Or.inr (Or.inr rfl)) (Or.inl rfl) (Or.inr (Or.inl rfl)) rfl

/-- C2 (counterexample): three consecutive 429 responses (each with a
numeric Retry-After) followed by a 2xx do NOT lead to the 2xx being
returned: each rate-limit `continue` advances the shared `for tries in
range(3)` counter, so after the third 429 the loop is exhausted and the
generic HTTP error is raised — the fourth (2xx) response is never
requested. -/
theorem request_c2_counterexample :
    requestRun [.ok 429 (some 1) (.obj [("error", .str "limited")]),
        .ok 429 (some 1) (.obj [("error", .str "limited")]),
        .ok 429 (some 1) (.obj [("error", .str "limited")]),
        .ok 200 none (.str "done")]
      = ⟨.httpError 429 (.str "limited"), [1, 1, 1], 3⟩ ∧
    RequestOutcome.httpError 429 (.str "limited") ≠ .success (.str "done") :=
  ⟨rfl, fun h => RequestOutcome.noConfusion h⟩

/-- C2 (amended): rate-limit retries share the 3-attempt counter; for at
most 2 consecutive 429 responses (each with a numeric Retry-After)
followed by a 2xx, the call sleeps each Retry-After duration in order
and returns the decoded 2xx body. -/
theorem request_ratelimit_within_budget
    (pre : List (ℚ × JsonData)) (hk : pre.length ≤ 2)
    (ra : Option ℚ) (body : JsonData) (rest : List TransportResult) :
    requestRun (pre.map (fun p => .ok 429 (some p.1) p.2) ++ .ok 200 ra body :: rest)
      = ⟨.success body, pre.map Prod.fst, pre.length + 1⟩ :=
  match pre, hk with
  | [], _ => rfl
  | [_], _ => rfl
  | [_, _], _ => rfl
  | _ :: _ :: _ :: _, hk => absurd hk (by simp)

/-- C2 (witness): the amended theorem applied with two 429 responses
(Retry-After 1/2 and 2 seconds) followed by a 200. -/
theorem request_ratelimit_within_budget_witness :
    requestRun [.ok 429 (some (1/2)) .null, .ok 429 (some 2) .null,
        .ok 200 none (.str "ok")]
      = ⟨.success (.str "ok"), [1/2, 2], 3⟩ :=
  request_ratelimit_within_budget [(1/2, .null), (2, .null)] (by simp)
    none (.str "ok") []

/-- C3: with the transport raising a recoverable connection error
(errno 54) on every attempt, the call backs off 1s, 3s, 5s and exhausts
its 3 attempts, but the original error is NOT re-raised: `response` was
never assigned, so the final `if response:` raises `UnboundLocalError`
instead (the `tries < 4` guard never lets the last attempt re-raise
inside a `range(3)` loop). -/
theorem request_c3_connection_error_not_reraised :
    requestRun [.osErr 54, .osErr 54, .osErr 54]
      = ⟨.unboundLocal, [1, 3, 5], 3⟩ ∧
    RequestOutcome.unboundLocal ≠ .osError 54 :=
  ⟨rfl, fun h => RequestOutcome.noConfusion h⟩

/-- C4: a 413 response makes the call raise the payload-too-large error
immediately — one transport invocation, no sleeps, no retry — carrying
the locally synthesized payload whose message is
"Request entity too large.". -/
theorem request_413_immediate (ra : Option ℚ) (body : JsonData)
    (rest : List TransportResult) :
    requestRun (.ok 413 ra body :: rest) = ⟨.entityTooLarge payload413, [], 1⟩ ∧
    payload413 = .obj [("status", .num 413), ("message", .str "Request entity too large.")] ∧
    (match payload413 with
     | .obj f => lookupField f "message"
     | _ => none) = some (.str "Request entity too large.") :=
  ⟨rfl, rfl, rfl⟩

/-- C5: a response whose status is outside [200, 300) and none of 413,
429, 500, 502, 503, and whose decoded body carries a (truthy) `error`
field, makes the call raise the exception kind obtained by looking the
status up in the status-to-exception mapping, built from that error
payload — immediately, with one transport invocation, no sleeps and no
retry. -/
theorem request_mapped_error
    (status : Nat) (ra : Option ℚ) (fields : List (String × JsonData))
    (e : JsonData) (kind : ExceptionKind) (rest : List TransportResult)
    (hs : ¬ (200 ≤ status ∧ status < 300))
    (h413 : status ≠ 413) (h429 : status ≠ 429)
    (h5xx : ¬ (status = 500 ∨ status = 502 ∨ status = 503))
    (he : lookupField fields "error" = some e)
    (ht : e.truthy = true)
    (hm : EXCEPTION_MAPPING status = some kind) :
    requestRun (.ok status ra (.obj fields) :: rest)
      = ⟨.mapped kind e, [], 1⟩ := by
  simp [requestRun, runAux, hs, h413, h429, h5xx, he, ht, hm]

/-- C5 (witness): a 404 whose body is
`\x7b"error": \x7b"message": "not found"\x7d\x7d` raises the mapped
NotFound kind carrying that payload, with zero retries. -/
theorem request_mapped_error_witness :
    requestRun [.ok 404 none (.obj [("error", .obj [("message", .str "not found")])])]
      = ⟨.mapped .notFound (.obj [("message", .str "not found")]), [], 1⟩ :=
  request_mapped_error 404 none [("error", .obj [("message", .str "not found")])]
    (.obj [("message", .str "not found")]) .notFound []
    (by decide) (by decide) (by decide) (by decide) rfl rfl rfl

/-- C6: `_get_credentials` refreshes the effective credential (the
caller-supplied one if given, else the cached client credential, created
fresh if absent) exactly once when it reports itself expired and never
otherwise, and the credential it returns never reports itself
expired. -/
theorem getCredentials_refresh_policy
    (cached : Option Credential) (fresh : Credential) (caller : Option Credential) :
    (getCredentials cached fresh caller).refreshCalls
        = (if (effectiveCredential cached fresh caller).expired then 1 else 0) ∧
    (getCredentials cached fresh caller).returned
        = (if (effectiveCredential cached fresh caller).expired
           then (effectiveCredential cached fresh caller).refreshed
           else effectiveCredential cached fresh caller) ∧
    (getCredentials cached fresh caller).returned.expired = false := by
  unfold getCredentials
  cases h : (effectiveCredential cached fresh caller).expired <;>
    simp [h, Credential.refreshed]

/-- The names a template references are exactly where `formatMap` can
fail: if all are bound the result is the substitution described by the
spec. -/
theorem formatMap_ok_of_bound (segs : List Segment) (m : List (String × PyValue))
    (hb : ∀ n ∈ holes segs, (lookupParam m n).isSome) :
    formatMap segs m = .ok (specSubst m segs) := by
  induction segs with
  | nil => rfl
  | cons seg rest ih =>
    cases seg with
    | lit s =>
      have := ih (fun n hn => hb n hn)
      simp [formatMap, holes, specSubst, this]
    | hole n =>
      have hn : (lookupParam m n).isSome := hb n (by simp [holes])
      obtain ⟨v, hv⟩ := Option.isSome_iff_exists.mp hn
      have := ih (fun x hx => hb x (by simp [holes, hx]))
      simp [formatMap, specSubst, hv, this]

/-- Conversely, a successful `formatMap` means every referenced name was
bound in the map. -/
theorem formatMap_bound_of_ok (segs : List Segment) (m : List (String × PyValue))
    (t : String) (hok : formatMap segs m = .ok t) :
    ∀ n ∈ holes segs, (lookupParam m n).isSome := by
  induction segs generalizing t with
  | nil => simp [holes]
  | cons seg rest ih =>
    cases seg with
    | lit s =>
      intro n hn
      rw [formatMap] at hok
      rcases hfm : formatMap rest m with k | t2 <;> rw [hfm] at hok
      · exact absurd hok (by simp)
      · exact ih t2 hfm n (by simpa [holes] using hn)
    | hole x =>
      intro n hn
      rw [formatMap] at hok
      rcases hl : lookupParam m x with _ | v <;> rw [hl] at hok
      · exact absurd hok (by simp)
      · rcases hfm : formatMap rest m with k | t2 <;> rw [hfm] at hok
        · exact absurd hok (by simp)
        · rcases (by simpa [holes] using hn : n = x ∨ n ∈ holes rest) with rfl | h
          · simp [hl]
          · exact ih t2 hfm n h

/-- `formatMap` fails exactly when the template references a name absent
from the map. -/
theorem formatMap_error_iff (segs : List Segment) (m : List (String × PyValue)) :
    (∃ k, formatMap segs m = .error k) ↔
      ∃ n ∈ holes segs, lookupParam m n = none := by
  constructor
  · rintro ⟨k, hk⟩
    by_contra hno
    push_neg at hno
    have hb : ∀ n ∈ holes segs, (lookupParam m n).isSome := by
      intro n hn
      rcases hl : lookupParam m n with _ | v
      · exact absurd hl (hno n hn)
      · simp
    rw [formatMap_ok_of_bound segs m hb] at hk
    exact absurd hk (by simp)
  · rintro ⟨n, hn, hnone⟩
    rcases hfm : formatMap segs m with k | t
    · exact ⟨k, rfl⟩
    · have hs := formatMap_bound_of_ok segs m t hfm n hn
      rw [hnone] at hs
      exact absurd hs (by simp)

/-- C7: with a non-empty placeholder map, the Route url is the base URL
plus the template with every placeholder substituted — string values
percent-encoded by `quote`, integer values stringified as-is (both via
`mapValue` inside `specSubst`) — and construction fails exactly when the
template references a placeholder name absent from the map. -/
theorem route_substitution (path : List Segment) (params : List (String × PyValue))
    (hne : params ≠ []) :
    ((∀ n ∈ holes path, (lookupParam params n).isSome) →
        routeUrl path params = .ok (BASE_URL ++ specSubst params path)) ∧
    ((∃ k, routeUrl path params = .error k) ↔
        ∃ n ∈ holes path, lookupParam params n = none) := by
  have hER : routeUrl path params = formatMap (.lit BASE_URL :: path) params := by
    simp [routeUrl, List.isEmpty_iff, hne]
  constructor
  · intro hb
    rw [hER, formatMap_ok_of_bound (.lit BASE_URL :: path) params
      (by simpa [holes] using hb)]
    simp [specSubst]
  · rw [hER]
    simpa [holes] using formatMap_error_iff (.lit BASE_URL :: path) params

/-- C7 (witness): substituting a string with a space percent-encodes it;
the template `/albums/\x7bid\x7d` with `id = "a b"` resolves to
`.../albums/a%20b`. -/
theorem route_substitution_witness :
    routeUrl [.lit "/albums/", .hole "id"] [("id", PyValue.str "a b")]
      = .ok "https://api.spotify.com/v1/albums/a%20b" :=
  (route_substitution [.lit "/albums/", .hole "id"] [("id", PyValue.str "a b")]
    (by decide)).1 (by decide)

/-- C8: calling a list-bounded endpoint method with more ids than its
documented maximum fails with the `ValueError` synchronously: the result
is an error and the list of transport invocations it leads to is empty —
for `get_albums` (max 20), `get_artists` (max 50) and `save_tracks`
(max 50). -/
theorem listBounded_validation (ids : List String) (market : Option String) :
    (20 < ids.length →
        requestsOf (get_albums ids market) = [] ∧
        ∃ e, get_albums ids market = .error e) ∧
    (50 < ids.length →
        (requestsOf (get_artists ids market) = [] ∧
          ∃ e, get_artists ids market = .error e) ∧
        (requestsOf (save_tracks ids) = [] ∧
          ∃ e, save_tracks ids = .error e)) := by
  constructor
  · intro h
    simp [get_albums, requestsOf, h]
  · intro h
    simp [get_artists, save_tracks, requestsOf, h]

/-- C8 (witness): 51 ids exceed every one of the three bounds, so all
three endpoint methods fail with zero transport invocations. -/
theorem listBounded_validation_witness :
    requestsOf (get_albums (List.replicate 51 "x") none) = [] ∧
    requestsOf (get_artists (List.replicate 51 "x") none) = [] ∧
    requestsOf (save_tracks (List.replicate 51 "x")) = [] :=
  ⟨((listBounded_validation (List.replicate 51 "x") none).1 (by decide)).1,
   (((listBounded_validation (List.replicate 51 "x") none).2 (by decide)).1).1,
   (((listBounded_validation (List.replicate 51 "x") none).2 (by decide)).2).1⟩

/-- `lookupParam` over an appended parameter list. -/
theorem lookupParam_append (xs ys : List (String × PyValue)) (key : String) :
    lookupParam (xs ++ ys) key
      = ((lookupParam xs key).rec (lookupParam ys key) (fun v => some v)) := by
  induction xs with
  | nil => rfl
  | cons p rest ih =>
    by_cases h : p.1 = key <;> simp [lookupParam, h, ih]

/-- `optStrParam` never introduces a key other than its own. -/
theorem lookupParam_optStrParam_ne (name : String) (v : Option String)
    (key : String) (h : name ≠ key) :
    lookupParam (optStrParam name v) key = none := by
  cases v with
  | none => rfl
  | some s =>
    by_cases hs : s = "" <;> simp [optStrParam, lookupParam, hs, h]

/-- `optIntParam` never introduces a key other than its own. -/
theorem lookupParam_optIntParam_ne (name : String) (v : Option Int)
    (key : String) (h : name ≠ key) :
    lookupParam (optIntParam name v) key = none := by
  cases v with
  | none => rfl
  | some n =>
    by_cases hn : n = 0 <;> simp [optIntParam, lookupParam, hn, h]

/-- C9: passing `limit = 0` to a paging endpoint raises no validation
error and sends no `limit` query parameter: the `if limit:` guard tests
truthiness, so both the range check and the parameter are skipped —
although 0 is outside the documented 1 to 50 range, as the skipped check
itself would report. -/
theorem limit_zero_skips_check (albumId : String) (market country : Option String)
    (offset : Option Int) :
    (∃ r, get_album_tracks albumId market (some 0) offset = .ok r ∧
        lookupParam r.params "limit" = none) ∧
    (∃ r, get_new_releases country (some 0) offset = .ok r ∧
        lookupParam r.params "limit" = none) ∧
    (∃ e, limit_value "limit" 0 1 50 = .error e) := by
  refine ⟨⟨_, rfl, ?_⟩, ⟨_, rfl, ?_⟩, ⟨_, rfl⟩⟩
  · simp [lookupParam_append,
      lookupParam_optStrParam_ne "market" market "limit" (by decide),
      lookupParam_optIntParam_ne "offset" offset "limit" (by decide),
      lookupParam]
  · simp [lookupParam_append,
      lookupParam_optStrParam_ne "country" country "limit" (by decide),
      lookupParam_optIntParam_ne "offset" offset "limit" (by decide),
      lookupParam]

/-- Any placeholder a template mentions occurs verbatim, between braces,
in the rendered template. -/
theorem renderTemplate_hole_verbatim (path : List Segment) (n : String)
    (h : Segment.hole n ∈ path) :
    ∃ pre post,
      renderTemplate path = pre ++ ("\x7b" ++ n ++ "\x7d") ++ post := by
  induction path with
  | nil => cases h
  | cons seg rest ih =>
    rcases List.mem_cons.mp h with hEq | hMem
    · exact ⟨"", renderTemplate rest, by rw [← hEq]; simp [renderTemplate]⟩
    · obtain ⟨pre, post, hp⟩ := ih hMem
      cases seg with
      | lit s =>
        exact ⟨s ++ pre, post, by
          simp [renderTemplate, hp, String.append_assoc]⟩
      | hole m =>
        exact ⟨"\x7b" ++ m ++ "\x7d" ++ pre, post, by
          simp [renderTemplate, hp, String.append_assoc]⟩

/-- C10: with an empty placeholder map no substitution is performed: the
url is exactly the base URL concatenated with the literal template,
construction always succeeds, and every `\x7bname\x7d` placeholder of
the template remains in the url verbatim. -/
theorem route_empty_params (path : List Segment) :
    routeUrl path [] = .ok (BASE_URL ++ renderTemplate path) ∧
    ∀ n, Segment.hole n ∈ path →
      ∃ pre post,
        BASE_URL ++ renderTemplate path = pre ++ ("\x7b" ++ n ++ "\x7d") ++ post := by
  refine ⟨rfl, fun n hn => ?_⟩
  obtain ⟨pre, post, hp⟩ := renderTemplate_hole_verbatim path n hn
  exact ⟨BASE_URL ++ pre, post, by rw [hp]; simp [String.append_assoc]⟩

/-- C10 (witness): a Route built from a template that still contains a
placeholder, with no placeholder arguments, succeeds and keeps
`\x7bid\x7d` verbatim in the url. -/
theorem route_empty_params_witness :
    routeUrl [.lit "/albums/", .hole "id", .lit "/tracks"] []
      = .ok "https://api.spotify.com/v1/albums/\x7bid\x7d/tracks" ∧
    ∃ pre post,
      "https://api.spotify.com/v1/albums/\x7bid\x7d/tracks"
        = pre ++ ("\x7b" ++ "id" ++ "\x7d") ++ post :=
  ⟨(route_empty_params [.lit "/albums/", .hole "id", .lit "/tracks"]).1,
   (route_empty_params [.lit "/albums/", .hole "id", .lit "/tracks"]).2 "id" (by decide)⟩

end Aiospotify
